import Mathlib

/-!
Verification of the `ck` CLI (BeaconBay/ck) against its specification.

Shallow embedding of the code in `src/ck-cli`, `src/ck-embed` and
`src/ck-models`.  Pure data and control flow are translated directly from the
Rust source; external capabilities (the `ck_search` engine, the filesystem,
the network, stdin) are passed in as explicit oracle parameters.  Terminal
styling (the `console` / `owo_colors` crates) is excluded from the spec's
scope (spec section 1) and is modelled as the identity on text.
-/

namespace Ck

/-- Search mode, from `ck_core::SearchMode` (the closed variant of spec
section 9). -/
inductive SearchMode where
  | Regex
  | Lexical
  | Semantic
  | Hybrid
deriving DecidableEq, Repr

/-- One search hit, from `ck_search::SearchResult`.  The `f32` score is
modelled as a rational number. -/
structure SearchResult where
  file : String
  line_start : Nat
  line_end : Nat
  preview : String
  score : Rat
deriving DecidableEq, Repr

/-- Per-query summary, from `ck_search::SearchSummary`.  The duration is
modelled as a natural number of nanoseconds. -/
structure SearchSummary where
  total_matches : Nat
  files_with_matches : Nat
  files_searched : Nat
  search_duration : Nat
  closest_below_threshold : Option SearchResult
deriving DecidableEq, Repr

/-- `SearchSummary::default()`: all counters zero, no diagnostic result. -/
def SearchSummary.default : SearchSummary :=
  { total_matches := 0
    files_with_matches := 0
    files_searched := 0
    search_duration := 0
    closest_below_threshold := none }

/-- Modelled from the spec: `SearchSummary::merge` lives in the ck-search
crate, which is not under src/.  Spec section 4.5 requires per-path result
sets to merge into one summary "with sums, not overwrites" over
`total_matches`, `files_with_matches`, `files_searched` and `duration`;
spec section 7 keeps the single best below-threshold result as the
diagnostic. -/
def SearchSummary.merge (s other : SearchSummary) : SearchSummary :=
  { total_matches := s.total_matches + other.total_matches
    files_with_matches := s.files_with_matches + other.files_with_matches
    files_searched := s.files_searched + other.files_searched
    search_duration := s.search_duration + other.search_duration
    closest_below_threshold :=
      match s.closest_below_threshold, other.closest_below_threshold with
      | none, o => o
      | some c, none => some c
      | some c, some d => if c.score < d.score then some d else some c }

/-- Per-query options, from `ck_core::SearchOptions` as populated in
`CommandDispatcher::search_command` (src/ck-cli/src/dispatcher.rs). -/
structure SearchOptions where
  line_numbers : Bool
  no_filename : Bool
  with_filename : Bool
  context : Option Nat
  before_context : Option Nat
  after_context : Option Nat
  recursive : Bool
  ignore_case : Bool
  fixed_strings : Bool
  word_regexp : Bool
  files_with_matches : Bool
  files_without_matches : Bool
  json : Bool
  jsonl : Bool
  topk : Option Nat
  threshold : Option Rat
  show_scores : Bool
  full_section : Bool
  no_snippet : Bool
  exclude : List String
  no_default_excludes : Bool
  no_ignore : Bool
  rerank : Bool
  rerank_model : Option String
deriving DecidableEq, Repr

/-- `SearchOptions::default()` as used by `SearchCommand::new`. -/
def SearchOptions.default : SearchOptions :=
  { line_numbers := false
    no_filename := false
    with_filename := false
    context := none
    before_context := none
    after_context := none
    recursive := false
    ignore_case := false
    fixed_strings := false
    word_regexp := false
    files_with_matches := false
    files_without_matches := false
    json := false
    jsonl := false
    topk := none
    threshold := none
    show_scores := false
    full_section := false
    no_snippet := false
    exclude := []
    no_default_excludes := false
    no_ignore := false
    rerank := false
    rerank_model := none }

/-- The options as seen by the search engine.  Modelled from the spec:
section 4.5 states that result filtering (`files_with_matches` /
`files_without_matches`) "is applied after scoring/fusion, not before", so
the engine never consults those two flags; erasing them here expresses
that contract. -/
def SearchOptions.engineView (o : SearchOptions) : SearchOptions :=
  { o with files_with_matches := false, files_without_matches := false }

/-- What `ck_search::search` returns for one path: `results.results` and
`results.summary` (src/ck-cli/src/commands/search.rs lines 136-152). -/
structure SearchOutput where
  results : List SearchResult
  summary : SearchSummary
deriving DecidableEq, Repr

/-- The ck-search engine as an abstract capability: pattern, path, mode and
options to a scored output. -/
def SearchEngine : Type :=
  String → String → SearchMode → SearchOptions → SearchOutput

/-- Modelled from the spec: the ck-search crate's `search` entry point is
not under src/.  The engine is kept abstract; per spec section 4.5 it does
not consult the output-filter flags, which `SearchOptions.engineView`
erases before the call. -/
def searchEngineCall (engine : SearchEngine) (pattern path : String)
    (mode : SearchMode) (opts : SearchOptions) : SearchOutput :=
  engine pattern path mode opts.engineView

/-- Shared CLI context, from `CommandContext`
(src/ck-cli/src/commands/mod.rs). -/
structure CommandContext where
  verbose : Bool
  quiet : Bool
  no_progress : Bool
  working_dir : String
deriving DecidableEq, Repr

/-- `CommandContext::default()`. -/
def CommandContext.default : CommandContext :=
  { verbose := false, quiet := false, no_progress := false, working_dir := "." }

/-- The search command's fields (src/ck-cli/src/commands/search.rs). -/
structure SearchCommand where
  pattern : String
  paths : List String
  mode : SearchMode
  options : SearchOptions
  context : CommandContext

/-- Terminal styling is excluded from the spec's scope (section 1, colorized
output formatting); `console::style(...)` and `owo_colors` calls are
modelled as the identity on the text they decorate. -/
def styleText (s : String) : String := s

/-- Rendering of the score prefix built in `format_result` when
`show_scores` is set; the decimal formatting of the `f32` is abstracted to
the canonical rendering of the rational score. -/
def scoreDisplay (score : Rat) : String :=
  "[" ++ toString score ++ "] "

/-- `SearchCommand::highlight_match`: in regex mode the matched spans are
re-emitted wrapped in styling; with styling modelled as identity the
reconstructed text equals the input, and every other mode returns the text
unchanged. -/
def SearchCommand.highlight_match (_cmd : SearchCommand) (text : String) : String :=
  text

/-- `SearchCommand::format_result` (src/ck-cli/src/commands/search.rs
lines 38-59). -/
def SearchCommand.format_result (cmd : SearchCommand) (r : SearchResult) : String :=
  let scorePart :=
    if cmd.options.show_scores then styleText (scoreDisplay r.score) else ""
  let filePart :=
    if ¬cmd.options.no_filename then
      styleText
        (if cmd.options.line_numbers then
          r.file ++ ":" ++ toString r.line_start ++ ": "
        else
          r.file ++ ": ")
    else if cmd.options.line_numbers then
      toString r.line_start ++ ": "
    else
      ""
  scorePart ++ filePart ++ cmd.highlight_match r.preview

/-- The verbose match-count line printed by `print_summary`. -/
def foundLine (s : SearchSummary) : String :=
  "Found " ++ toString s.total_matches ++ " matches in " ++
    toString s.files_with_matches ++ " files (searched " ++
    toString s.files_searched ++ " files in " ++
    toString s.search_duration ++ "ns)"

/-- `SearchCommand::print_summary` (src/ck-cli/src/commands/search.rs
lines 86-106), as the list of stderr lines it emits. -/
def SearchCommand.print_summary (cmd : SearchCommand) (s : SearchSummary) :
    List String :=
  if ¬cmd.context.quiet then
    if s.total_matches = 0 then
      ["No matches found"] ++
        (match s.closest_below_threshold with
          | some closest =>
            ["", styleText "(nearest match beneath the threshold)",
              cmd.format_result closest]
          | none => [])
    else if cmd.context.verbose then
      [foundLine s]
    else
      []
  else
    []

/-- The semantic-mode information line printed before searching. -/
def semanticHeader (topk : Nat) (threshold : Rat) : String :=
  "Semantic search: top " ++ toString topk ++ " results, threshold >= " ++
    toString threshold

/-- The stderr header lines of `execute`: the semantic info line when the
mode is semantic and the context is not quiet. -/
def SearchCommand.headerLines (cmd : SearchCommand) : List String :=
  if cmd.mode = SearchMode.Semantic ∧ ¬cmd.context.quiet then
    [semanticHeader (cmd.options.topk.getD 10) (cmd.options.threshold.getD (6 / 10))]
  else
    []

/-- The effective path list: `.` when no path was given
(src/ck-cli/src/commands/search.rs lines 116-120). -/
def SearchCommand.searchPaths (cmd : SearchCommand) : List String :=
  if cmd.paths.isEmpty then ["."] else cmd.paths

/-- The engine output for one target path. -/
def SearchCommand.perPath (cmd : SearchCommand) (engine : SearchEngine)
    (path : String) : SearchOutput :=
  searchEngineCall engine cmd.pattern path cmd.mode cmd.options

/-- The stdout line emitted for one result inside the per-path loop
(src/ck-cli/src/commands/search.rs lines 143-150): the bare file name under
`files_with_matches`, the formatted result otherwise, and nothing at all
under `files_without_matches`. -/
def SearchCommand.printedFor (cmd : SearchCommand) (r : SearchResult) :
    Option String :=
  if cmd.options.files_with_matches then
    some r.file
  else if ¬cmd.options.files_without_matches then
    some (cmd.format_result r)
  else
    none

/-- One iteration of the per-path loop: print the (possibly filtered)
results, collect them all, and merge the path's summary into the total. -/
def SearchCommand.pathStep (cmd : SearchCommand) (engine : SearchEngine)
    (acc : List String × List SearchResult × SearchSummary) (path : String) :
    List String × List SearchResult × SearchSummary :=
  let out := cmd.perPath engine path
  (acc.1 ++ out.results.filterMap cmd.printedFor,
    acc.2.1 ++ out.results,
    acc.2.2.merge out.summary)

/-- The observable outcome of `SearchCommand::execute`: stdout lines (only
per-result output is printed to stdout), stderr lines, the collected
`all_results`, the merged summary, and the process exit code. -/
structure SearchExecOutcome where
  stdoutLines : List String
  stderrLines : List String
  allResults : List SearchResult
  summary : SearchSummary
  exitCode : Nat
deriving DecidableEq, Repr

/-- `SearchCommand::execute` (src/ck-cli/src/commands/search.rs
lines 115-159): iterate the paths, print filtered results, merge summaries,
print the summary, and exit with 0 on at least one match and 1 otherwise. -/
def SearchCommand.execute (cmd : SearchCommand) (engine : SearchEngine) :
    SearchExecOutcome :=
  let folded :=
    cmd.searchPaths.foldl (cmd.pathStep engine) ([], [], SearchSummary.default)
  { stdoutLines := folded.1
    stderrLines := cmd.headerLines ++ cmd.print_summary folded.2.2
    allResults := folded.2.1
    summary := folded.2.2
    exitCode := if folded.2.2.total_matches > 0 then 0 else 1 }

/-- The list of per-path summaries a search invocation merges. -/
def SearchCommand.pathSummaries (cmd : SearchCommand) (engine : SearchEngine) :
    List SearchSummary :=
  cmd.searchPaths.map fun p => (cmd.perPath engine p).summary

/-- The same command with the two output-filter flags replaced, leaving every
other option untouched; used to state that those flags shape output only. -/
def SearchCommand.withFilterFlags (cmd : SearchCommand) (a b : Bool) :
    SearchCommand :=
  { cmd with
      options :=
        { cmd.options with files_with_matches := a, files_without_matches := b } }

/-- A concrete search result used as a test fixture. -/
def res0 : SearchResult :=
  { file := "lib.rs", line_start := 2, line_end := 2,
    preview := "fn foo()", score := 1 }

/-- A concrete per-path summary with two matches. -/
def sum2 : SearchSummary :=
  { total_matches := 2, files_with_matches := 1, files_searched := 3,
    search_duration := 5, closest_below_threshold := none }

/-- A concrete per-path summary with no matches but a near-miss result. -/
def sumMiss : SearchSummary :=
  { total_matches := 0, files_with_matches := 0, files_searched := 3,
    search_duration := 5, closest_below_threshold := some res0 }

/-- A concrete engine that finds `res0` twice on every path. -/
def engineHit : SearchEngine := fun _ _ _ _ =>
  { results := [res0, res0], summary := sum2 }

/-- A concrete engine that finds nothing but reports `res0` as the nearest
below-threshold candidate. -/
def engineMiss : SearchEngine := fun _ _ _ _ =>
  { results := [], summary := sumMiss }

/-- A concrete search command over one path with default options. -/
def cmdBase : SearchCommand :=
  { pattern := "foo", paths := ["crate"], mode := SearchMode.Regex,
    options := SearchOptions.default, context := CommandContext.default }

/-- The base command in semantic mode. -/
def cmdSem : SearchCommand :=
  { cmdBase with mode := SearchMode.Semantic }

/-- The base command with only `files_without_matches` set. -/
def cmdNoMatchFilter : SearchCommand :=
  cmdBase.withFilterFlags false true

/-- Boolean success test for `Except`, mirroring Rust's `Result::is_ok`. -/
def exceptOk {ε α : Type} : Except ε α → Bool
  | Except.ok _ => true
  | Except.error _ => false

/-- The clean command's fields (src/ck-cli/src/commands/clean.rs). -/
structure CleanCommand where
  path : String
  orphans_only : Bool
  context : CommandContext

/-- ASCII case folding, the folding `eq_ignore_ascii_case` applies. -/
def asciiToLower (c : Char) : Char :=
  if 'A' ≤ c ∧ c ≤ 'Z' then Char.ofNat (c.toNat + 32) else c

/-- Whitespace as removed by `str::trim`, modelled for the ASCII range. -/
def isSpaceChar (c : Char) : Bool :=
  c = ' ' ∨ c = '\t' ∨ c = '\n' ∨ c = '\r'

/-- `str::trim` on the character sequence: strip leading and trailing
whitespace. -/
def trimChars (l : List Char) : List Char :=
  ((l.dropWhile isSpaceChar).reverse.dropWhile isSpaceChar).reverse

/-- The positive-confirmation test used at the prompt:
`input.trim().eq_ignore_ascii_case("y")` (src/ck-cli/src/commands/clean.rs
line 72), so exactly a trimmed `y` or `Y` confirms. -/
def confirmsYes (input : String) : Bool :=
  decide (((trimChars input.data).map asciiToLower) = ['y'])

/-- Observable outcome of `CleanCommand::execute`: whether the destructive
`ck_index::clean_index` ran, whether the orphan sweep ran, whether the
confirmation prompt was put to the user, and the status messages. -/
structure CleanOutcome where
  clean_index_called : Bool
  clean_orphans_called : Bool
  prompted : Bool
  messages : List String
deriving DecidableEq, Repr

/-- `CleanCommand::execute` (src/ck-cli/src/commands/clean.rs lines 38-86),
with stdin modelled as the line read at the prompt and the orphan sweep's
removal count as an oracle. -/
def CleanCommand.execute (cmd : CleanCommand) (stdinLine : String)
    (orphanCount : Nat) : CleanOutcome :=
  if cmd.orphans_only then
    { clean_index_called := false
      clean_orphans_called := true
      prompted := false
      messages :=
        if orphanCount > 0 then
          ["✅ Removed " ++ toString orphanCount ++ " orphaned sidecar files"]
        else
          ["No orphaned files found"] }
  else
    if ¬cmd.context.quiet then
      if ¬confirmsYes stdinLine then
        { clean_index_called := false
          clean_orphans_called := false
          prompted := true
          messages := ["Cancelled"] }
      else
        { clean_index_called := true
          clean_orphans_called := false
          prompted := true
          messages := ["✅ Index cleaned successfully"] }
    else
      { clean_index_called := true
        clean_orphans_called := false
        prompted := false
        messages := ["✅ Index cleaned successfully"] }

/-- A concrete full-clean command in quiet mode. -/
def cmdCleanQuiet : CleanCommand :=
  { path := ".", orphans_only := false,
    context := { verbose := false, quiet := true, no_progress := false,
                 working_dir := "." } }

/-- A concrete full-clean command in interactive (non-quiet) mode. -/
def cmdCleanLoud : CleanCommand :=
  { path := ".", orphans_only := false, context := CommandContext.default }

/-- `VALID_MODELS` (src/ck-models/src/validation.rs lines 1-8). -/
def VALID_MODELS : List String :=
  ["BAAI/bge-small-en-v1.5",
    "nomic-embed-text-v1.5",
    "jina-embeddings-v2-base-code",
    "sentence-transformers/all-MiniLM-L6-v2",
    "BAAI/bge-base-en-v1.5",
    "BAAI/bge-large-en-v1.5"]

/-- `is_valid_model` (src/ck-models/src/validation.rs lines 10-12). -/
def is_valid_model (model : String) : Bool :=
  VALID_MODELS.contains model

/-- `get_valid_models` (src/ck-models/src/validation.rs lines 14-16). -/
def get_valid_models : List String :=
  VALID_MODELS

/-- The model-not-found message built by `IndexCommand::validate`
(src/ck-cli/src/commands/index.rs lines 211-215). -/
def modelNotFoundMsg (m : String) : String :=
  "❌ Model '" ++ m ++ "' not found\n📋 Available models: " ++
    String.intercalate ", " get_valid_models

/-- The index command's fields (src/ck-cli/src/commands/index.rs). -/
structure IndexCommand where
  path : String
  model : Option String
  exclude_patterns : List String
  force_rebuild : Bool
  context : CommandContext
  max_retries : Nat

/-- `IndexCommand::validate` (src/ck-cli/src/commands/index.rs
lines 208-219): reject a supplied model name not in the fixed list, with a
message naming the model and the available list. -/
def IndexCommand.validate (cmd : IndexCommand) : Except String Unit :=
  match cmd.model with
  | some m =>
      if ¬is_valid_model m then
        Except.error (modelNotFoundMsg m)
      else
        Except.ok ()
  | none => Except.ok ()

/-- A concrete index command asking for an unknown model. -/
def cmdIndexBadModel : IndexCommand :=
  { path := ".", model := some "gpt-7", exclude_patterns := [],
    force_rebuild := false, context := CommandContext.default,
    max_retries := 3 }

/-- The mode-selection flags of the `Cli` argument set: `--sem`, `--lex`,
`--hybrid` and `--regex` (src/ck-cli/src/dispatcher.rs lines 94-104). -/
structure ModeFlags where
  sem : Bool
  lex : Bool
  hybrid : Bool
  regex : Bool
deriving DecidableEq, Repr

/-- Mode selection in `CommandDispatcher::search_command`
(src/ck-cli/src/dispatcher.rs lines 230-238): `--sem` wins, then `--lex`,
then `--hybrid`, else regex mode; the `regex` field is never read. -/
def selectMode (f : ModeFlags) : SearchMode :=
  if f.sem then SearchMode.Semantic
  else if f.lex then SearchMode.Lexical
  else if f.hybrid then SearchMode.Hybrid
  else SearchMode.Regex

/-- Mode selection in `run` (src/ck-cli/src/main.rs lines 168-176), whose
`Search` subcommand has no regex flag at all: same precedence chain. -/
def selectModeMain (semantic lexical hybrid : Bool) : SearchMode :=
  if semantic then SearchMode.Semantic
  else if lexical then SearchMode.Lexical
  else if hybrid then SearchMode.Hybrid
  else SearchMode.Regex

/-- `ModelDownloadConfig` (src/ck-embed/src/download.rs lines 7-14), with
`Duration` modelled as whole seconds. -/
structure ModelDownloadConfig where
  max_retries : Nat
  timeout : Nat
  cache_dir : String
  offline_mode : Bool
  verbose : Bool
deriving DecidableEq, Repr

/-- `ModelDownloadConfig::default()` (src/ck-embed/src/download.rs
lines 16-26); the platform cache-path resolution is excluded from the spec's
scope (section 1) and fixed here to the fallback directory. -/
def ModelDownloadConfig.default : ModelDownloadConfig :=
  { max_retries := 3, timeout := 300, cache_dir := ".ck_models/models",
    offline_mode := false, verbose := false }

/-- `ModelDownloader::check_model_cached` (src/ck-embed/src/download.rs
lines 74-105): the filesystem probe is supplied as the `cached` oracle,
holding the model path when the cache directory contains an onnx file for
the model; a cache miss in offline mode is an error. -/
def checkModelCached (cfg : ModelDownloadConfig) (model : String)
    (cached : Option String) : Except String (Option String) :=
  match cached with
  | some p => Except.ok (some p)
  | none =>
      if cfg.offline_mode then
        Except.error ("Model '" ++ model ++ "' not found in cache at " ++
          cfg.cache_dir ++ ". Cannot download in offline mode.")
      else
        Except.ok none

/-- One download attempt, `ModelDownloader::try_download`
(src/ck-embed/src/download.rs lines 166-211): the blocking fetch is raced
against `cfg.timeout` via `tokio::time::timeout`, so the observable duration
is the fetch duration cut off at the timeout, and hitting the timeout is an
error.  The fetch itself is the external network capability; its true
duration (seconds) and outcome are the attempt's oracle value. -/
def tryDownload (cfg : ModelDownloadConfig) (model : String)
    (att : Nat × Except String Unit) : Except String String × Nat :=
  if cfg.timeout ≤ att.1 then
    (Except.error ("Download timeout after " ++ toString cfg.timeout ++ "s"),
      cfg.timeout)
  else
    match att.2 with
    | Except.ok _ => (Except.ok (cfg.cache_dir ++ "/" ++ model), att.1)
    | Except.error e => (Except.error e, att.1)

/-- Observable trace of a retry loop: the final result, the number of
attempts made, the backoff sleeps taken before attempts 2, 3, ... in
seconds, and the observable duration of each attempt. -/
structure RetryTrace (α : Type) where
  result : Except String α
  attempts_made : Nat
  delays : List Nat
  attempt_times : List Nat
deriving Repr

/-- The retry loop shared by duplication (spec section 9) between
`ModelDownloader::download_with_retry` (src/ck-embed/src/download.rs
lines 116-163) and `IndexCommand::download_model_with_retry`
(src/ck-cli/src/commands/index.rs lines 51-78): attempts are numbered from
`k`, the first success returns, and exhausting the attempt budget (`fuel`)
returns the last error.  The two sources differ in one point, captured by
the `backoff` flag: the downloader always sleeps `2^(attempt-1)` seconds
before every attempt after the first, while the index command guards that
sleep with `attempts > 1 && !self.context.quiet` (index.rs lines 57-60) and
so retries immediately, with no sleep, when quiet.  `backoffDelay` is the
sleep performed before attempt `k`: `2^(k-1)` seconds when `k > 1` and the
backoff is enabled, nothing otherwise. -/
def backoffDelay (backoff : Bool) (k : Nat) : List Nat :=
  if k > 1 ∧ backoff = true then [2 ^ (k - 1)] else []

/-- The loop itself; see `backoffDelay` for the guarded sleep. -/
def retryLoop {α : Type} (attempt : Nat → Except String α × Nat)
    (defaultErr : String) (backoff : Bool) :
    Nat → Nat → Option String → RetryTrace α
  | _, 0, lastErr =>
      { result := Except.error (lastErr.getD defaultErr)
        attempts_made := 0
        delays := []
        attempt_times := [] }
  | k, fuel + 1, _lastErr =>
      let delay := backoffDelay backoff k
      match attempt k with
      | (Except.ok a, t) =>
          { result := Except.ok a
            attempts_made := 1
            delays := delay
            attempt_times := [t] }
      | (Except.error e, t) =>
          let rest := retryLoop attempt defaultErr backoff (k + 1) fuel (some e)
          { result := rest.result
            attempts_made := 1 + rest.attempts_made
            delays := delay ++ rest.delays
            attempt_times := t :: rest.attempt_times }

/-- `ModelDownloader::download_with_retry` (src/ck-embed/src/download.rs
lines 107-164): return the cached model if present, otherwise attempt the
download up to `max_retries` times with exponential backoff, surfacing the
last error once the budget is exhausted. -/
def download_with_retry (cfg : ModelDownloadConfig) (model : String)
    (cached : Option String) (oracle : Nat → Nat × Except String Unit) :
    RetryTrace String :=
  match checkModelCached cfg model cached with
  | Except.error e =>
      { result := Except.error e, attempts_made := 0, delays := [],
        attempt_times := [] }
  | Except.ok (some p) =>
      { result := Except.ok p, attempts_made := 0, delays := [],
        attempt_times := [] }
  | Except.ok none =>
      retryLoop (fun k => tryDownload cfg model (oracle k))
        ("Failed to download model after " ++ toString cfg.max_retries ++
          " attempts")
        true 1 cfg.max_retries none

/-- Modelled from the spec: `ck_embed::create_embedder_with_progress`, which
`IndexCommand::try_download_model` delegates to, is not under src/.  Per
spec section 5 every network-backed model acquisition is bounded by a
caller-supplied timeout, so the attempt is modelled with the same timeout
race as `ModelDownloader::try_download`. -/
def indexTryDownload (timeout : Nat) (att : Nat × Except String Unit) :
    Except String Unit × Nat :=
  if timeout ≤ att.1 then
    (Except.error "download timeout", timeout)
  else
    (att.2, att.1)

/-- `IndexCommand::download_model_with_retry`
(src/ck-cli/src/commands/index.rs lines 31-79): with `max_retries = 0`
(offline mode) only the cache is consulted; otherwise attempt the download
up to `max_retries` times, and exhausting the budget is a terminal error.
The backoff sleep is guarded by `attempts > 1 && !self.context.quiet`
(index.rs lines 57-60), so a quiet command retries with no delay. -/
def IndexCommand.download_model_with_retry (cmd : IndexCommand)
    (timeout : Nat) (model : String) (cached : Option String)
    (oracle : Nat → Nat × Except String Unit) : RetryTrace Unit :=
  if cmd.max_retries = 0 then
    match cached with
    | some _ =>
        { result := Except.ok (), attempts_made := 0, delays := [],
          attempt_times := [] }
    | none =>
        { result := Except.error ("Model '" ++ model ++
            "' not found in cache."),
          attempts_made := 0, delays := [], attempt_times := [] }
  else
    retryLoop (fun k => indexTryDownload timeout (oracle k))
      ("Failed to download model '" ++ model ++ "' after " ++
        toString cmd.max_retries ++ " attempts")
      (!cmd.context.quiet) 1 cmd.max_retries none

/-- A network oracle on which every fetch takes 400s and fails. -/
def oracleFail : Nat → Nat × Except String Unit :=
  fun _ => (400, Except.error "connection reset")

/-- A concrete index command retrying in quiet mode. -/
def cmdIndexQuiet : IndexCommand :=
  { path := ".", model := none, exclude_patterns := [],
    force_rebuild := false,
    context := { verbose := false, quiet := true, no_progress := false,
                 working_dir := "." },
    max_retries := 3 }

/-- A chunk span (spec section 3). -/
structure Span where
  line_start : Nat
  line_end : Nat
deriving DecidableEq, Repr

/-- A chunk's optional symbol tag (spec section 3). -/
structure SymbolTag where
  kind : String
  name : String
deriving DecidableEq, Repr

/-- A chunk, the unit the chunker produces (spec section 3). -/
structure Chunk where
  text : String
  span : Span
  symbol : Option SymbolTag
deriving DecidableEq, Repr

/-- The slice of `IndexStats` the inspect command reads. -/
structure IndexStats where
  total_files : Nat
  total_chunks : Nat
deriving DecidableEq, Repr

/-- The external operations an inspect run can request; the vocabulary also
names the embedder-creating and model-downloading operations that other
commands use, so their absence from a trace is meaningful. -/
inductive InspectEffect where
  | readFile (path : String)
  | newTokenEstimator (model : String)
  | estimateTokens (text : String)
  | detectLanguage (path : String)
  | chunkContent (path : String)
  | getIndexStats (dir : String)
  | createEmbedder (model : String)
  | downloadModel (model : String)
deriving DecidableEq, Repr

/-- Whether an effect creates, loads or downloads the embedding model. -/
def InspectEffect.usesEmbedder : InspectEffect → Bool
  | InspectEffect.createEmbedder _ => true
  | InspectEffect.downloadModel _ => true
  | _ => false

/-- `str::lines().count()`: segments split at newlines, with a trailing
newline not adding an empty final line. -/
def countLines (s : String) : Nat :=
  let parts := s.splitOn "\n"
  if parts.getLast? = some "" then parts.length - 1 else parts.length

/-- `Path::parent` for the inspect command's stats lookup, `.` when the
path has no directory component. -/
def parentDir (p : String) : String :=
  let parts := p.splitOn "/"
  if parts.length ≤ 1 then "." else String.intercalate "/" parts.dropLast

/-- The environment an inspect run reads: the filesystem probes, the file
content, the token estimator (`ck_embed::TokenEstimator::new`, the cheap
offline approximation of spec section 4.2, kept abstract since the crate
file is not under src/), the detected language, the chunker output and the
optional index statistics. -/
structure InspectEnv where
  fileExists : Bool
  isFile : Bool
  content : Except String String
  estimatorNew : Except String (String → Nat)
  language : Option String
  chunks : Except String (List Chunk)
  indexStats : Option IndexStats

/-- The data the successful path of `InspectCommand::execute` reports. -/
structure InspectReport where
  byte_count : Nat
  line_count : Nat
  fileTokens : Nat
  chunkTokens : List Nat

/-- The inspect command's fields (src/ck-cli/src/commands/inspect.rs). -/
structure InspectCommand where
  file_path : String
  model : Option String
  context : CommandContext

/-- `InspectCommand::execute` (src/ck-cli/src/commands/inspect.rs
lines 34-147), returning the report and the trace of external operations in
program order: read the file, build the token estimator, estimate the whole
file's tokens, detect the language, chunk the content, estimate each
chunk's tokens, and finally look up directory index statistics (skipped,
like the chunk estimates, when no chunks were produced). -/
def InspectCommand.execute (cmd : InspectCommand) (env : InspectEnv) :
    Except String InspectReport × List InspectEffect :=
  if ¬env.fileExists then
    (Except.error ("File not found: " ++ cmd.file_path), [])
  else if ¬env.isFile then
    (Except.error ("Not a file: " ++ cmd.file_path), [])
  else
    match env.content with
    | Except.error e => (Except.error e, [InspectEffect.readFile cmd.file_path])
    | Except.ok content =>
        let model_name := cmd.model.getD "nomic-embed-text-v1.5"
        match env.estimatorNew with
        | Except.error e =>
            (Except.error e,
              [InspectEffect.readFile cmd.file_path,
                InspectEffect.newTokenEstimator model_name])
        | Except.ok est =>
            let baseTrace :=
              [InspectEffect.readFile cmd.file_path,
                InspectEffect.newTokenEstimator model_name,
                InspectEffect.estimateTokens content,
                InspectEffect.detectLanguage cmd.file_path,
                InspectEffect.chunkContent cmd.file_path]
            match env.chunks with
            | Except.error e => (Except.error e, baseTrace)
            | Except.ok chunks =>
                if chunks.isEmpty then
                  (Except.ok
                    { byte_count := content.length
                      line_count := countLines content
                      fileTokens := est content
                      chunkTokens := [] },
                    baseTrace)
                else
                  (Except.ok
                    { byte_count := content.length
                      line_count := countLines content
                      fileTokens := est content
                      chunkTokens := chunks.map fun c => est c.text },
                    baseTrace ++
                      (chunks.map fun c => InspectEffect.estimateTokens c.text) ++
                      [InspectEffect.getIndexStats (parentDir cmd.file_path)])

/-- A concrete chunk fixture. -/
def chunk0 : Chunk :=
  { text := "fn a()", span := { line_start := 1, line_end := 1 },
    symbol := some { kind := "function", name := "a" } }

/-- A concrete inspect environment with one chunk and a length-based
estimator. -/
def inspectEnv0 : InspectEnv :=
  { fileExists := true, isFile := true,
    content := Except.ok "fn a()\n",
    estimatorNew := Except.ok (fun s => s.length),
    language := some "rust",
    chunks := Except.ok [chunk0],
    indexStats := none }

/-- A concrete inspect command. -/
def cmdInspect : InspectCommand :=
  { file_path := "src/lib.rs", model := none, context := CommandContext.default }

theorem pathStep_fold (cmd : SearchCommand) (engine : SearchEngine)
    (l : List String) :
    ∀ (out : List String) (all : List SearchResult) (tot : SearchSummary),
      l.foldl (cmd.pathStep engine) (out, all, tot) =
        (out ++ (l.map fun p =>
            (cmd.perPath engine p).results.filterMap cmd.printedFor).flatten,
          all ++ (l.map fun p => (cmd.perPath engine p).results).flatten,
          (l.map fun p => (cmd.perPath engine p).summary).foldl
            SearchSummary.merge tot) := by
  induction l with
  | nil => intro out all tot; simp
  | cons p t ih =>
      intro out all tot
      simp only [List.foldl_cons, List.map_cons, List.flatten, SearchCommand.pathStep]
      rw [ih]
      simp [List.append_assoc]

/-- Characterisation of `SearchCommand.execute` as per-path joins and the
merge-fold of the per-path summaries. -/
theorem execute_spec (cmd : SearchCommand) (engine : SearchEngine) :
    cmd.execute engine =
      { stdoutLines := (cmd.searchPaths.map fun p =>
            (cmd.perPath engine p).results.filterMap cmd.printedFor).flatten
        stderrLines := cmd.headerLines ++ cmd.print_summary
            ((cmd.pathSummaries engine).foldl SearchSummary.merge
              SearchSummary.default)
        allResults := (cmd.searchPaths.map fun p =>
            (cmd.perPath engine p).results).flatten
        summary := (cmd.pathSummaries engine).foldl SearchSummary.merge
            SearchSummary.default
        exitCode :=
          if ((cmd.pathSummaries engine).foldl SearchSummary.merge
              SearchSummary.default).total_matches > 0 then 0 else 1 } := by
  unfold SearchCommand.execute SearchCommand.pathSummaries
  rw [pathStep_fold]
  simp

/-- Folding `SearchSummary.merge` sums each counting field and the
duration. -/
theorem foldl_merge_components (l : List SearchSummary) :
    ∀ init : SearchSummary,
      ((l.foldl SearchSummary.merge init).total_matches
          = init.total_matches + (l.map SearchSummary.total_matches).sum)
      ∧ ((l.foldl SearchSummary.merge init).files_with_matches
          = init.files_with_matches + (l.map SearchSummary.files_with_matches).sum)
      ∧ ((l.foldl SearchSummary.merge init).files_searched
          = init.files_searched + (l.map SearchSummary.files_searched).sum)
      ∧ ((l.foldl SearchSummary.merge init).search_duration
          = init.search_duration + (l.map SearchSummary.search_duration).sum) := by
  induction l with
  | nil => intro init; simp
  | cons s t ih =>
      intro init
      simp only [List.foldl_cons, List.map_cons, List.sum_cons]
      obtain ⟨h1, h2, h3, h4⟩ := ih (init.merge s)
      refine ⟨?_, ?_, ?_, ?_⟩
      · rw [h1]; simp [SearchSummary.merge]; omega
      · rw [h2]; simp [SearchSummary.merge]; omega
      · rw [h3]; simp [SearchSummary.merge]; omega
      · rw [h4]; simp [SearchSummary.merge]; omega

/-- C1: for every completed search invocation the exit code is 0 exactly
when the merged summary's total match count (the sum of the per-path match
counts) is positive, and 1 otherwise, regardless of mode or output-shaping
flags. -/
theorem search_exit_code_contract (cmd : SearchCommand) (engine : SearchEngine) :
    (((cmd.execute engine).exitCode = 0) ↔
        0 < ((cmd.pathSummaries engine).map SearchSummary.total_matches).sum)
    ∧ (((cmd.execute engine).exitCode = 1) ↔
        ((cmd.pathSummaries engine).map SearchSummary.total_matches).sum = 0)
    ∧ (cmd.execute engine).summary.total_matches
        = ((cmd.pathSummaries engine).map SearchSummary.total_matches).sum := by
  have hx := execute_spec cmd engine
  have hc := (foldl_merge_components (cmd.pathSummaries engine)
    SearchSummary.default).1
  have hS : (List.foldl SearchSummary.merge SearchSummary.default
      (cmd.pathSummaries engine)).total_matches
      = ((cmd.pathSummaries engine).map SearchSummary.total_matches).sum := by
    rw [hc]; simp [SearchSummary.default]
  rw [hx]
  simp only
  rw [← hS]
  rcases Nat.eq_zero_or_pos (List.foldl SearchSummary.merge SearchSummary.default
      (cmd.pathSummaries engine)).total_matches with h | h
  · simp [h]
  · simp [h, Nat.pos_iff_ne_zero.mp h]

/-- C2: per-path summaries combine into the final summary by summing
`total_matches`, `files_with_matches` and `files_searched` and accumulating
the duration, and the exit code and summary output are computed from the
merged totals. -/
theorem summary_merge_is_sum (cmd : SearchCommand) (engine : SearchEngine) :
    ((cmd.execute engine).summary.total_matches
        = ((cmd.pathSummaries engine).map SearchSummary.total_matches).sum)
    ∧ ((cmd.execute engine).summary.files_with_matches
        = ((cmd.pathSummaries engine).map SearchSummary.files_with_matches).sum)
    ∧ ((cmd.execute engine).summary.files_searched
        = ((cmd.pathSummaries engine).map SearchSummary.files_searched).sum)
    ∧ ((cmd.execute engine).summary.search_duration
        = ((cmd.pathSummaries engine).map SearchSummary.search_duration).sum)
    ∧ ((cmd.execute engine).exitCode =
        if (cmd.execute engine).summary.total_matches > 0 then 0 else 1)
    ∧ ((cmd.execute engine).stderrLines =
        cmd.headerLines ++ cmd.print_summary (cmd.execute engine).summary) := by
  have hx := execute_spec cmd engine
  have e1 : (List.foldl SearchSummary.merge SearchSummary.default
      (cmd.pathSummaries engine)).total_matches
      = ((cmd.pathSummaries engine).map SearchSummary.total_matches).sum := by
    rw [(foldl_merge_components (cmd.pathSummaries engine) SearchSummary.default).1]
    simp [SearchSummary.default]
  have e2 : (List.foldl SearchSummary.merge SearchSummary.default
      (cmd.pathSummaries engine)).files_with_matches
      = ((cmd.pathSummaries engine).map SearchSummary.files_with_matches).sum := by
    rw [(foldl_merge_components (cmd.pathSummaries engine) SearchSummary.default).2.1]
    simp [SearchSummary.default]
  have e3 : (List.foldl SearchSummary.merge SearchSummary.default
      (cmd.pathSummaries engine)).files_searched
      = ((cmd.pathSummaries engine).map SearchSummary.files_searched).sum := by
    rw [(foldl_merge_components (cmd.pathSummaries engine) SearchSummary.default).2.2.1]
    simp [SearchSummary.default]
  have e4 : (List.foldl SearchSummary.merge SearchSummary.default
      (cmd.pathSummaries engine)).search_duration
      = ((cmd.pathSummaries engine).map SearchSummary.search_duration).sum := by
    rw [(foldl_merge_components (cmd.pathSummaries engine) SearchSummary.default).2.2.2]
    simp [SearchSummary.default]
  rw [hx]
  simp only
  exact ⟨e1, e2, e3, e4, by trivial, by trivial⟩

theorem exec_stderr_eq (cmd : SearchCommand) (engine : SearchEngine) :
    (cmd.execute engine).stderrLines =
      cmd.headerLines ++ cmd.print_summary (cmd.execute engine).summary := by
  rw [execute_spec]

theorem exec_exit_def (cmd : SearchCommand) (engine : SearchEngine) :
    (cmd.execute engine).exitCode =
      if (cmd.execute engine).summary.total_matches > 0 then 0 else 1 := by
  rw [execute_spec]

theorem exec_total_sum (cmd : SearchCommand) (engine : SearchEngine) :
    (cmd.execute engine).summary.total_matches
      = ((cmd.pathSummaries engine).map SearchSummary.total_matches).sum := by
  rw [execute_spec]
  simp only
  rw [(foldl_merge_components (cmd.pathSummaries engine) SearchSummary.default).1]
  simp [SearchSummary.default]

theorem exec_exit_zero_iff (cmd : SearchCommand) (engine : SearchEngine) :
    ((cmd.execute engine).exitCode = 0) ↔
      0 < ((cmd.pathSummaries engine).map SearchSummary.total_matches).sum := by
  rw [exec_exit_def, ← exec_total_sum]
  rcases Nat.eq_zero_or_pos (cmd.execute engine).summary.total_matches with h | h
  · simp [h]
  · simp [h, Nat.pos_iff_ne_zero.mp h]

theorem withFilterFlags_perPath (cmd : SearchCommand) (engine : SearchEngine)
    (x y : Bool) :
    (cmd.withFilterFlags x y).perPath engine = cmd.perPath engine := by
  funext p
  simp [SearchCommand.withFilterFlags, SearchCommand.perPath, searchEngineCall,
    SearchOptions.engineView]

theorem withFilterFlags_searchPaths (cmd : SearchCommand) (x y : Bool) :
    (cmd.withFilterFlags x y).searchPaths = cmd.searchPaths := rfl

theorem withFilterFlags_pathSummaries (cmd : SearchCommand)
    (engine : SearchEngine) (x y : Bool) :
    (cmd.withFilterFlags x y).pathSummaries engine = cmd.pathSummaries engine := by
  unfold SearchCommand.pathSummaries
  rw [withFilterFlags_searchPaths, withFilterFlags_perPath]

/-- C6: the output-filter flags shape per-result output only, after the
search has run: changing `files_with_matches` / `files_without_matches` in
any way leaves the collected result set, the merged summary (including the
nearest below-threshold candidate used for the no-match diagnostic) and the
exit code unchanged. -/
theorem filter_flags_applied_after_search (cmd : SearchCommand)
    (engine : SearchEngine) (a b x y : Bool) :
    (((cmd.withFilterFlags a b).execute engine).allResults
        = ((cmd.withFilterFlags x y).execute engine).allResults)
    ∧ (((cmd.withFilterFlags a b).execute engine).summary
        = ((cmd.withFilterFlags x y).execute engine).summary)
    ∧ (((cmd.withFilterFlags a b).execute engine).summary.closest_below_threshold
        = ((cmd.withFilterFlags x y).execute engine).summary.closest_below_threshold)
    ∧ (((cmd.withFilterFlags a b).execute engine).exitCode
        = ((cmd.withFilterFlags x y).execute engine).exitCode) := by
  have hsum : ∀ u v : Bool,
      ((cmd.withFilterFlags u v).execute engine).summary
        = (cmd.pathSummaries engine).foldl SearchSummary.merge
            SearchSummary.default := by
    intro u v
    rw [execute_spec]
    simp only
    rw [withFilterFlags_pathSummaries]
  have hall : ∀ u v : Bool,
      ((cmd.withFilterFlags u v).execute engine).allResults
        = (cmd.searchPaths.map fun p => (cmd.perPath engine p).results).flatten := by
    intro u v
    rw [execute_spec]
    simp only
    rw [withFilterFlags_searchPaths, withFilterFlags_perPath]
  have hexit : ∀ u v : Bool,
      ((cmd.withFilterFlags u v).execute engine).exitCode
        = if ((cmd.pathSummaries engine).foldl SearchSummary.merge
            SearchSummary.default).total_matches > 0 then 0 else 1 := by
    intro u v
    rw [exec_exit_def, hsum]
  refine ⟨?_, ?_, ?_, ?_⟩
  · rw [hall a b, hall x y]
  · rw [hsum a b, hsum x y]
  · rw [hsum a b, hsum x y]
  · rw [hexit a b, hexit x y]

/-- C10: with `files_without_matches` set and `files_with_matches` unset, no
per-result stdout line is produced at all, while the full result set is still
collected, the summary is still the merge of the per-path summaries, and the
exit code is still computed from the full merged totals. -/
theorem files_without_matches_suppresses_stdout (cmd : SearchCommand)
    (engine : SearchEngine)
    (h1 : cmd.options.files_without_matches = true)
    (h2 : cmd.options.files_with_matches = false) :
    ((cmd.execute engine).stdoutLines = [])
    ∧ ((cmd.execute engine).allResults
        = (cmd.searchPaths.map fun p => (cmd.perPath engine p).results).flatten)
    ∧ ((cmd.execute engine).summary
        = (cmd.pathSummaries engine).foldl SearchSummary.merge
            SearchSummary.default)
    ∧ (((cmd.execute engine).exitCode = 0) ↔
        0 < ((cmd.pathSummaries engine).map SearchSummary.total_matches).sum) := by
  have hprint : ∀ r, cmd.printedFor r = none := by
    intro r
    simp [SearchCommand.printedFor, h1, h2]
  refine ⟨?_, ?_, ?_, exec_exit_zero_iff cmd engine⟩
  · rw [execute_spec]
    simp [hprint]
  · rw [execute_spec]
  · rw [execute_spec]

/-- C10 witness: the suppression theorem applied to a concrete command with
`files_without_matches` set and a concrete engine that finds two matches. -/
theorem files_without_matches_suppresses_stdout_witness :
    ((cmdNoMatchFilter.execute engineHit).stdoutLines = [])
    ∧ ((cmdNoMatchFilter.execute engineHit).allResults
        = (cmdNoMatchFilter.searchPaths.map fun p =>
            (cmdNoMatchFilter.perPath engineHit p).results).flatten)
    ∧ ((cmdNoMatchFilter.execute engineHit).summary
        = (cmdNoMatchFilter.pathSummaries engineHit).foldl SearchSummary.merge
            SearchSummary.default)
    ∧ (((cmdNoMatchFilter.execute engineHit).exitCode = 0) ↔
        0 < ((cmdNoMatchFilter.pathSummaries engineHit).map
          SearchSummary.total_matches).sum) :=
  files_without_matches_suppresses_stdout cmdNoMatchFilter engineHit rfl rfl

/-- C4: when a semantic or hybrid query completes with zero total matches in
a non-quiet context and a best below-threshold result exists, the summary
printed to stderr reports "No matches found" followed by that single nearest
result as a diagnostic, and the invocation still finishes normally with the
no-match exit code rather than an error. -/
theorem no_match_below_threshold_diagnostic (cmd : SearchCommand)
    (engine : SearchEngine) (c : SearchResult)
    (_hmode : cmd.mode = SearchMode.Semantic ∨ cmd.mode = SearchMode.Hybrid)
    (hq : cmd.context.quiet = false)
    (hz : (cmd.execute engine).summary.total_matches = 0)
    (hc : (cmd.execute engine).summary.closest_below_threshold = some c) :
    ((cmd.execute engine).stderrLines =
      cmd.headerLines ++
        ["No matches found", "",
          styleText "(nearest match beneath the threshold)",
          cmd.format_result c])
    ∧ (cmd.execute engine).exitCode = 1 := by
  constructor
  · rw [exec_stderr_eq]
    unfold SearchCommand.print_summary
    simp [hq, hz, hc]
  · rw [exec_exit_def, hz]
    simp

/-- C4 witness: the diagnostic theorem applied to a concrete semantic query
whose engine reports zero matches and a nearest below-threshold result. -/
theorem no_match_below_threshold_diagnostic_witness :
    ((cmdSem.execute engineMiss).stderrLines =
      cmdSem.headerLines ++
        ["No matches found", "",
          styleText "(nearest match beneath the threshold)",
          cmdSem.format_result res0])
    ∧ (cmdSem.execute engineMiss).exitCode = 1 :=
  no_match_below_threshold_diagnostic cmdSem engineMiss res0 (Or.inl rfl) rfl
    rfl rfl

/-- C5 counterexample: a full (non-orphans-only) clean in quiet mode invokes
the destructive `clean_index` although no prompt is put to the user and the
available stdin line is a negative answer, so `clean_index` runs without any
positive confirmation. -/
theorem clean_quiet_bypasses_confirmation :
    (cmdCleanQuiet.execute "n" 0).clean_index_called = true
    ∧ (cmdCleanQuiet.execute "n" 0).prompted = false
    ∧ confirmsYes "n" = false := by
  refine ⟨rfl, rfl, ?_⟩
  decide

/-- C5 amended: for a full (non-orphans-only) clean invocation in non-quiet
mode, the prompt is put to the user and `clean_index` is invoked exactly when
the trimmed answer is an ASCII-case-insensitive `y`; in quiet mode the
confirmation prompt is skipped and `clean_index` is invoked unconditionally. -/
theorem clean_confirmation_gate (cmd : CleanCommand) (stdinLine : String)
    (orphanCount : Nat) (ho : cmd.orphans_only = false) :
    (cmd.context.quiet = false →
      ((cmd.execute stdinLine orphanCount).clean_index_called
          = confirmsYes stdinLine
        ∧ (cmd.execute stdinLine orphanCount).prompted = true))
    ∧ (cmd.context.quiet = true →
      ((cmd.execute stdinLine orphanCount).clean_index_called = true
        ∧ (cmd.execute stdinLine orphanCount).prompted = false)) := by
  unfold CleanCommand.execute
  rw [ho]
  constructor
  · intro hq
    rw [hq]
    by_cases hy : confirmsYes stdinLine
    · simp [hy]
    · simp [hy]
  · intro hq
    rw [hq]
    simp

/-- C5 witness: the amended gate applied at a concrete interactive clean with
an affirmative answer and at a concrete quiet clean. -/
theorem clean_confirmation_gate_witness :
    ((cmdCleanLoud.context.quiet = false →
      ((cmdCleanLoud.execute "y" 0).clean_index_called = confirmsYes "y"
        ∧ (cmdCleanLoud.execute "y" 0).prompted = true))
    ∧ (cmdCleanLoud.context.quiet = true →
      ((cmdCleanLoud.execute "y" 0).clean_index_called = true
        ∧ (cmdCleanLoud.execute "y" 0).prompted = false)))
    ∧ ((cmdCleanQuiet.context.quiet = false →
      ((cmdCleanQuiet.execute "Y " 0).clean_index_called = confirmsYes "Y "
        ∧ (cmdCleanQuiet.execute "Y " 0).prompted = true))
    ∧ (cmdCleanQuiet.context.quiet = true →
      ((cmdCleanQuiet.execute "Y " 0).clean_index_called = true
        ∧ (cmdCleanQuiet.execute "Y " 0).prompted = false))) :=
  ⟨clean_confirmation_gate cmdCleanLoud "y" 0 rfl,
    clean_confirmation_gate cmdCleanQuiet "Y " 0 rfl⟩

/-- C7: `is_valid_model` is exactly membership in the fixed six-entry model
list, `IndexCommand::validate` fails exactly on names outside that list, and
the failure message contains the rejected name together with the joined list
of available models. -/
theorem model_validation_exact (m : String) (cmd : IndexCommand)
    (hm : cmd.model = some m) :
    (is_valid_model m = true ↔ m ∈ VALID_MODELS)
    ∧ VALID_MODELS.length = 6
    ∧ (exceptOk cmd.validate = true ↔ m ∈ VALID_MODELS)
    ∧ (is_valid_model m = false →
        cmd.validate = Except.error (modelNotFoundMsg m)
        ∧ (∃ s1 s2, modelNotFoundMsg m = s1 ++ m ++ s2)
        ∧ (∃ s3 s4, modelNotFoundMsg m
            = s3 ++ String.intercalate ", " get_valid_models ++ s4)) := by
  have hmem : is_valid_model m = true ↔ m ∈ VALID_MODELS := by
    simp [is_valid_model]
  refine ⟨hmem, rfl, ?_, ?_⟩
  · unfold IndexCommand.validate
    rw [hm]
    by_cases hv : is_valid_model m
    · simp [hv, exceptOk, hmem.mp hv]
    · have : ¬ m ∈ VALID_MODELS := fun h => hv (hmem.mpr h)
      simp [hv, exceptOk, this]
  · intro hv
    refine ⟨?_, ⟨"❌ Model '", "' not found\n📋 Available models: " ++
        String.intercalate ", " get_valid_models, ?_⟩,
      ⟨"❌ Model '" ++ m ++ "' not found\n📋 Available models: ", "", ?_⟩⟩
    · unfold IndexCommand.validate
      rw [hm]
      simp [hv]
    · unfold modelNotFoundMsg
      simp [String.append_assoc]
    · unfold modelNotFoundMsg
      simp [String.append_assoc]

/-- C7 witness: the validation theorem applied to a concrete index command
naming an unknown model. -/
theorem model_validation_exact_witness :
    ((is_valid_model "gpt-7" = true ↔ "gpt-7" ∈ VALID_MODELS)
    ∧ VALID_MODELS.length = 6
    ∧ (exceptOk cmdIndexBadModel.validate = true ↔ "gpt-7" ∈ VALID_MODELS)
    ∧ (is_valid_model "gpt-7" = false →
        cmdIndexBadModel.validate = Except.error (modelNotFoundMsg "gpt-7")
        ∧ (∃ s1 s2, modelNotFoundMsg "gpt-7" = s1 ++ "gpt-7" ++ s2)
        ∧ (∃ s3 s4, modelNotFoundMsg "gpt-7"
            = s3 ++ String.intercalate ", " get_valid_models ++ s4))) :=
  model_validation_exact "gpt-7" cmdIndexBadModel rfl

/-- C8: search-mode selection is a fixed precedence chain over the flags:
semantic, then lexical, then hybrid, else regex; the `--regex` flag is never
consulted, so setting it alone selects the same mode as setting no flag, and
the subcommand binary's selection (which has no regex flag) agrees. -/
theorem mode_selection_precedence :
    (∀ f : ModeFlags, f.sem = true → selectMode f = SearchMode.Semantic)
    ∧ (∀ f : ModeFlags, f.sem = false → f.lex = true →
        selectMode f = SearchMode.Lexical)
    ∧ (∀ f : ModeFlags, f.sem = false → f.lex = false → f.hybrid = true →
        selectMode f = SearchMode.Hybrid)
    ∧ (∀ f : ModeFlags, f.sem = false → f.lex = false → f.hybrid = false →
        selectMode f = SearchMode.Regex)
    ∧ (∀ s l hy r1 r2 : Bool,
        selectMode ⟨s, l, hy, r1⟩ = selectMode ⟨s, l, hy, r2⟩)
    ∧ (selectMode ⟨false, false, false, true⟩
        = selectMode ⟨false, false, false, false⟩)
    ∧ (∀ s l hy r : Bool, selectMode ⟨s, l, hy, r⟩ = selectModeMain s l hy) := by
  refine ⟨?_, ?_, ?_, ?_, ?_, rfl, ?_⟩ <;>
    intros <;> simp_all [selectMode, selectModeMain]

/-- C8 witness: the precedence theorem applied at concrete flag settings,
including `--regex` alone matching no flag at all. -/
theorem mode_selection_precedence_witness :
    selectMode ⟨true, true, true, true⟩ = SearchMode.Semantic
    ∧ selectMode ⟨false, true, true, true⟩ = SearchMode.Lexical
    ∧ selectMode ⟨false, false, true, true⟩ = SearchMode.Hybrid
    ∧ selectMode ⟨false, false, false, true⟩ = SearchMode.Regex
    ∧ selectMode ⟨false, false, false, true⟩
        = selectMode ⟨false, false, false, false⟩ :=
  ⟨mode_selection_precedence.1 ⟨true, true, true, true⟩ rfl,
    mode_selection_precedence.2.1 ⟨false, true, true, true⟩ rfl rfl,
    mode_selection_precedence.2.2.1 ⟨false, false, true, true⟩ rfl rfl rfl,
    mode_selection_precedence.2.2.2.1 ⟨false, false, false, true⟩ rfl rfl rfl,
    mode_selection_precedence.2.2.2.2.2.1⟩

theorem retryLoop_succ_ok {α : Type} (attempt : Nat → Except String α × Nat)
    (d : String) (b : Bool) (k fuel : Nat) (err : Option String) (a : α)
    (t : Nat) (hA : attempt k = (Except.ok a, t)) :
    retryLoop attempt d b k (fuel + 1) err =
      { result := Except.ok a
        attempts_made := 1
        delays := backoffDelay b k
        attempt_times := [t] } := by
  conv_lhs => rw [retryLoop]
  rw [hA]

theorem retryLoop_succ_err {α : Type} (attempt : Nat → Except String α × Nat)
    (d : String) (b : Bool) (k fuel : Nat) (err : Option String) (e : String)
    (t : Nat) (hA : attempt k = (Except.error e, t)) :
    retryLoop attempt d b k (fuel + 1) err =
      { result := (retryLoop attempt d b (k + 1) fuel (some e)).result
        attempts_made := 1 + (retryLoop attempt d b (k + 1) fuel (some e)).attempts_made
        delays := backoffDelay b k ++
          (retryLoop attempt d b (k + 1) fuel (some e)).delays
        attempt_times := t :: (retryLoop attempt d b (k + 1) fuel (some e)).attempt_times } := by
  conv_lhs => rw [retryLoop]
  rw [hA]

theorem retryLoop_attempts_le {α : Type} (attempt : Nat → Except String α × Nat)
    (d : String) (b : Bool) :
    ∀ (fuel k : Nat) (err : Option String),
      (retryLoop attempt d b k fuel err).attempts_made ≤ fuel := by
  intro fuel
  induction fuel with
  | zero => intro k err; simp [retryLoop]
  | succ n ih =>
      intro k err
      rcases hA : attempt k with ⟨res, t⟩
      cases res with
      | ok a => rw [retryLoop_succ_ok attempt d b k n err a t hA]; simp
      | error e =>
          rw [retryLoop_succ_err attempt d b k n err e t hA]
          have := ih (k + 1) (some e)
          simp only
          omega

theorem backoffDelay_true_pos (k : Nat) (hk : 1 < k) :
    backoffDelay true k = [2 ^ (k - 1)] := by
  simp [backoffDelay, hk]

theorem backoffDelay_true_one : backoffDelay true 1 = [] := by
  simp [backoffDelay]

theorem backoffDelay_false (k : Nat) : backoffDelay false k = [] := by
  simp [backoffDelay]

theorem retryLoop_delays_ge2 {α : Type} (attempt : Nat → Except String α × Nat)
    (d : String) :
    ∀ (fuel k : Nat) (err : Option String), 2 ≤ k →
      ((retryLoop attempt d true k fuel err).delays.length
          = (retryLoop attempt d true k fuel err).attempts_made)
      ∧ (∀ i, i < (retryLoop attempt d true k fuel err).delays.length →
          (retryLoop attempt d true k fuel err).delays.getD i 0 = 2 ^ (k - 1 + i)) := by
  intro fuel
  induction fuel with
  | zero => intro k err hk; simp [retryLoop]
  | succ n ih =>
      intro k err hk
      have hk1 : 1 < k := hk
      rcases hA : attempt k with ⟨res, t⟩
      cases res with
      | ok a =>
          rw [retryLoop_succ_ok attempt d true k n err a t hA]
          simp only [backoffDelay_true_pos k hk1]
          refine ⟨rfl, ?_⟩
          intro i hi
          simp at hi
          subst hi
          rfl
      | error e =>
          rw [retryLoop_succ_err attempt d true k n err e t hA]
          obtain ⟨ihlen, ihval⟩ := ih (k + 1) (some e) (by omega)
          simp only [backoffDelay_true_pos k hk1]
          constructor
          · simp only [List.singleton_append, List.length_cons, ihlen]
            omega
          · intro i hi
            cases i with
            | zero => simp
            | succ j =>
                simp only [List.cons_append, List.nil_append,
                  List.length_cons] at hi
                have hj : j < (retryLoop attempt d true (k + 1) n (some e)).delays.length := by
                  omega
                simp only [List.cons_append, List.nil_append, List.getD_cons_succ]
                rw [ihval j hj]
                congr 1
                omega

theorem retryLoop_delays_one {α : Type} (attempt : Nat → Except String α × Nat)
    (d : String) (fuel : Nat) (err : Option String) :
    ∀ i, i < (retryLoop attempt d true 1 fuel err).delays.length →
      (retryLoop attempt d true 1 fuel err).delays.getD i 0 = 2 ^ (i + 1) := by
  cases fuel with
  | zero => intro i hi; simp [retryLoop] at hi
  | succ n =>
      rcases hA : attempt 1 with ⟨res, t⟩
      cases res with
      | ok a =>
          rw [retryLoop_succ_ok attempt d true 1 n err a t hA]
          intro i hi
          simp [backoffDelay_true_one] at hi
      | error e =>
          rw [retryLoop_succ_err attempt d true 1 n err e t hA]
          intro i hi
          simp only [backoffDelay_true_one, List.nil_append] at hi ⊢
          rw [(retryLoop_delays_ge2 attempt d n 2 (some e) (by omega)).2 i hi]
          congr 1
          omega

theorem retryLoop_delays_quiet {α : Type} (attempt : Nat → Except String α × Nat)
    (d : String) :
    ∀ (fuel k : Nat) (err : Option String),
      (retryLoop attempt d false k fuel err).delays = [] := by
  intro fuel
  induction fuel with
  | zero => intro k err; simp [retryLoop]
  | succ n ih =>
      intro k err
      rcases hA : attempt k with ⟨res, t⟩
      cases res with
      | ok a =>
          rw [retryLoop_succ_ok attempt d false k n err a t hA]
          simp [backoffDelay_false]
      | error e =>
          rw [retryLoop_succ_err attempt d false k n err e t hA]
          simp [backoffDelay_false, ih (k + 1) (some e)]

theorem retryLoop_all_fail {α : Type} (attempt : Nat → Except String α × Nat)
    (d : String) (b : Bool) (hf : ∀ j, exceptOk (attempt j).1 = false) :
    ∀ (fuel k : Nat) (err : Option String),
      exceptOk (retryLoop attempt d b k fuel err).result = false
      ∧ (retryLoop attempt d b k fuel err).attempts_made = fuel := by
  intro fuel
  induction fuel with
  | zero => intro k err; simp [retryLoop, exceptOk]
  | succ n ih =>
      intro k err
      rcases hA : attempt k with ⟨res, t⟩
      cases res with
      | ok a =>
          exfalso
          have := hf k
          rw [hA] at this
          simp [exceptOk] at this
      | error e =>
          rw [retryLoop_succ_err attempt d b k n err e t hA]
          obtain ⟨h1, h2⟩ := ih (k + 1) (some e)
          exact ⟨h1, by simp only; omega⟩

theorem retryLoop_times_le {α : Type} (attempt : Nat → Except String α × Nat)
    (d : String) (b : Bool) (B : Nat) (hB : ∀ j, (attempt j).2 ≤ B) :
    ∀ (fuel k : Nat) (err : Option String),
      ∀ x ∈ (retryLoop attempt d b k fuel err).attempt_times, x ≤ B := by
  intro fuel
  induction fuel with
  | zero => intro k err x hx; simp [retryLoop] at hx
  | succ n ih =>
      intro k err x hx
      rcases hA : attempt k with ⟨res, t⟩
      have ht : t ≤ B := by
        have := hB k
        rw [hA] at this
        exact this
      cases res with
      | ok a =>
          rw [retryLoop_succ_ok attempt d b k n err a t hA] at hx
          simp at hx
          omega
      | error e =>
          rw [retryLoop_succ_err attempt d b k n err e t hA] at hx
          simp only [List.mem_cons] at hx
          rcases hx with rfl | hx
          · exact ht
          · exact ih (k + 1) (some e) x hx

theorem tryDownload_time_le (cfg : ModelDownloadConfig) (model : String)
    (a : Nat × Except String Unit) :
    (tryDownload cfg model a).2 ≤ cfg.timeout := by
  rcases a with ⟨dur, res⟩
  unfold tryDownload
  by_cases h : cfg.timeout ≤ dur
  · simp [h]
  · cases res <;> simp [h] <;> omega

theorem indexTryDownload_time_le (timeout : Nat)
    (a : Nat × Except String Unit) :
    (indexTryDownload timeout a).2 ≤ timeout := by
  rcases a with ⟨dur, res⟩
  unfold indexTryDownload
  by_cases h : timeout ≤ dur
  · simp [h]
  · simp [h]; omega

/-- C3 counterexample: a quiet index command retries without any backoff
sleep: against a network where every fetch times out, three attempts are
made yet the recorded delay list is empty, so the delay before the second
attempt is 0, not the claimed `2^(2-1)` seconds. -/
theorem quiet_index_retry_has_no_delay :
    (cmdIndexQuiet.download_model_with_retry 300 "nomic-embed-text-v1.5"
        none oracleFail).attempts_made = 3
    ∧ (cmdIndexQuiet.download_model_with_retry 300 "nomic-embed-text-v1.5"
        none oracleFail).delays = []
    ∧ ¬((cmdIndexQuiet.download_model_with_retry 300 "nomic-embed-text-v1.5"
        none oracleFail).delays.getD 0 0 = 2 ^ 1) := by
  refine ⟨rfl, rfl, ?_⟩
  decide

/-- C3 amended: both network-backed model acquisitions (the downloader's
`download_with_retry` and the index command's `download_model_with_retry`)
attempt the operation at most `max_retries` times, bound every individual
attempt's observable duration by the configured timeout, and return a
terminal error once every attempt within the cap has failed; the sleep
before the k-th attempt (k at least 2) is `2^(k-1)` seconds for the
downloader always and for the index command when not quiet, while a quiet
index command retries with no delay at all. -/
theorem download_retry_policy (cfg : ModelDownloadConfig) (model : String)
    (cached : Option String) (oracle : Nat → Nat × Except String Unit)
    (cmd : IndexCommand) (timeout : Nat) (cached2 : Option String)
    (oracle2 : Nat → Nat × Except String Unit) :
    ((download_with_retry cfg model cached oracle).attempts_made
        ≤ cfg.max_retries)
    ∧ (∀ i, i < (download_with_retry cfg model cached oracle).delays.length →
        (download_with_retry cfg model cached oracle).delays.getD i 0
          = 2 ^ (i + 1))
    ∧ (∀ x ∈ (download_with_retry cfg model cached oracle).attempt_times,
        x ≤ cfg.timeout)
    ∧ (cached = none → cfg.offline_mode = false →
        (∀ j, exceptOk (tryDownload cfg model (oracle j)).1 = false) →
        exceptOk (download_with_retry cfg model cached oracle).result = false
          ∧ (download_with_retry cfg model cached oracle).attempts_made
              = cfg.max_retries)
    ∧ ((cmd.download_model_with_retry timeout model cached2 oracle2).attempts_made
        ≤ cmd.max_retries)
    ∧ (cmd.context.quiet = false →
        ∀ i, i < (cmd.download_model_with_retry timeout model cached2
            oracle2).delays.length →
          (cmd.download_model_with_retry timeout model cached2
            oracle2).delays.getD i 0 = 2 ^ (i + 1))
    ∧ (cmd.context.quiet = true →
        (cmd.download_model_with_retry timeout model cached2 oracle2).delays
          = [])
    ∧ (∀ x ∈ (cmd.download_model_with_retry timeout model cached2
          oracle2).attempt_times, x ≤ timeout)
    ∧ (cached2 = none →
        (∀ j, exceptOk (indexTryDownload timeout (oracle2 j)).1 = false) →
        exceptOk (cmd.download_model_with_retry timeout model cached2
            oracle2).result = false
          ∧ (cmd.download_model_with_retry timeout model cached2
              oracle2).attempts_made = cmd.max_retries) := by
  have hDcases :
      download_with_retry cfg model cached oracle
        = retryLoop (fun k => tryDownload cfg model (oracle k))
            ("Failed to download model after " ++ toString cfg.max_retries ++
              " attempts") true 1 cfg.max_retries none
      ∨ ((download_with_retry cfg model cached oracle).attempts_made = 0
          ∧ (download_with_retry cfg model cached oracle).delays = []
          ∧ (download_with_retry cfg model cached oracle).attempt_times = []) := by
    unfold download_with_retry checkModelCached
    rcases cached with _ | p
    · by_cases ho : cfg.offline_mode
      · right; simp [ho]
      · left; simp [ho]
    · right; simp
  have hIcases :
      cmd.download_model_with_retry timeout model cached2 oracle2
        = retryLoop (fun k => indexTryDownload timeout (oracle2 k))
            ("Failed to download model '" ++ model ++ "' after " ++
              toString cmd.max_retries ++ " attempts")
            (!cmd.context.quiet) 1 cmd.max_retries none
      ∨ (((cmd.download_model_with_retry timeout model cached2
            oracle2).attempts_made = 0 ∧ cmd.max_retries = 0)
          ∧ (cmd.download_model_with_retry timeout model cached2
              oracle2).delays = []
          ∧ (cmd.download_model_with_retry timeout model cached2
              oracle2).attempt_times = []) := by
    unfold IndexCommand.download_model_with_retry
    by_cases hz : cmd.max_retries = 0
    · right
      rcases cached2 with _ | p <;> simp [hz]
    · left
      simp [hz]
  refine ⟨?_, ?_, ?_, ?_, ?_, ?_, ?_, ?_, ?_⟩
  · rcases hDcases with h | ⟨h, _, _⟩
    · rw [h]; exact retryLoop_attempts_le _ _ true cfg.max_retries 1 none
    · omega
  · rcases hDcases with h | ⟨_, h, _⟩
    · rw [h]; exact retryLoop_delays_one _ _ cfg.max_retries none
    · rw [h]; intro i hi; simp at hi
  · rcases hDcases with h | ⟨_, _, h⟩
    · rw [h]
      exact retryLoop_times_le _ _ true cfg.timeout
        (fun j => tryDownload_time_le cfg model (oracle j)) cfg.max_retries 1 none
    · rw [h]; intro x hx; simp at hx
  · intro hc ho hf
    have h : download_with_retry cfg model cached oracle
        = retryLoop (fun k => tryDownload cfg model (oracle k))
            ("Failed to download model after " ++ toString cfg.max_retries ++
              " attempts") true 1 cfg.max_retries none := by
      unfold download_with_retry checkModelCached
      rw [hc]
      simp [ho]
    rw [h]
    exact ⟨(retryLoop_all_fail _ _ true hf cfg.max_retries 1 none).1,
      (retryLoop_all_fail _ _ true hf cfg.max_retries 1 none).2⟩
  · rcases hIcases with h | ⟨⟨h, _⟩, _, _⟩
    · rw [h]
      exact retryLoop_attempts_le _ _ (!cmd.context.quiet) cmd.max_retries 1 none
    · omega
  · intro hq
    rcases hIcases with h | ⟨_, h, _⟩
    · rw [h]
      simp only [hq, Bool.not_false]
      exact retryLoop_delays_one _ _ cmd.max_retries none
    · rw [h]; intro i hi; simp at hi
  · intro hq
    rcases hIcases with h | ⟨_, h, _⟩
    · rw [h]
      simp only [hq, Bool.not_true]
      exact retryLoop_delays_quiet _ _ cmd.max_retries 1 none
    · exact h
  · rcases hIcases with h | ⟨_, _, h⟩
    · rw [h]
      exact retryLoop_times_le _ _ (!cmd.context.quiet) timeout
        (fun j => indexTryDownload_time_le timeout (oracle2 j)) cmd.max_retries 1 none
    · rw [h]; intro x hx; simp at hx
  · intro hc hf
    rcases hIcases with h | ⟨⟨h0, hz⟩, _, _⟩
    · rw [h]
      exact ⟨(retryLoop_all_fail _ _ (!cmd.context.quiet) hf cmd.max_retries 1 none).1,
        (retryLoop_all_fail _ _ (!cmd.context.quiet) hf cmd.max_retries 1 none).2⟩
    · constructor
      · unfold IndexCommand.download_model_with_retry
        rw [hc]
        simp [hz, exceptOk]
      · omega

/-- C3 witness: the retry policy applied at a concrete failing network:
every fetch takes 400s against a 300s timeout, so three timed-out attempts
are made, a non-quiet index command sleeps 2s and 4s between them, a quiet
one records no delays, and both runs end in a terminal error. -/
theorem download_retry_policy_witness :
    (exceptOk (download_with_retry ModelDownloadConfig.default
        "nomic-embed-text-v1.5" none oracleFail).result = false
      ∧ (download_with_retry ModelDownloadConfig.default
          "nomic-embed-text-v1.5" none oracleFail).attempts_made = 3)
    ∧ (exceptOk (cmdIndexBadModel.download_model_with_retry 300
        "nomic-embed-text-v1.5" none oracleFail).result = false
      ∧ (cmdIndexBadModel.download_model_with_retry 300
          "nomic-embed-text-v1.5" none oracleFail).attempts_made = 3)
    ∧ (download_with_retry ModelDownloadConfig.default
        "nomic-embed-text-v1.5" none oracleFail).delays = [2, 4]
    ∧ (download_with_retry ModelDownloadConfig.default
        "nomic-embed-text-v1.5" none oracleFail).attempt_times
        = [300, 300, 300]
    ∧ (cmdIndexBadModel.download_model_with_retry 300
        "nomic-embed-text-v1.5" none oracleFail).delays = [2, 4]
    ∧ (cmdIndexQuiet.download_model_with_retry 300
        "nomic-embed-text-v1.5" none oracleFail).delays = [] :=
  ⟨(download_retry_policy ModelDownloadConfig.default "nomic-embed-text-v1.5"
      none oracleFail cmdIndexBadModel 300 none oracleFail).2.2.2.1
      rfl rfl (fun _ => rfl),
    (download_retry_policy ModelDownloadConfig.default "nomic-embed-text-v1.5"
      none oracleFail cmdIndexBadModel 300 none oracleFail).2.2.2.2.2.2.2.2
      rfl (fun _ => rfl),
    rfl, rfl, rfl,
    (download_retry_policy ModelDownloadConfig.default "nomic-embed-text-v1.5"
      none oracleFail cmdIndexQuiet 300 none oracleFail).2.2.2.2.2.2.1 rfl⟩

/-- C9: file inspection computes its per-file and per-chunk token counts
with the token estimator alone: the effect trace of every inspect run
contains no embedder-creating or model-downloading operation, and on
success the reported counts are exactly the estimator applied to the file
content and to each chunk's text. -/
theorem inspect_uses_only_estimator (cmd : InspectCommand) (env : InspectEnv)
    (content : String) (est : String → Nat) (chunks : List Chunk)
    (hcontent : env.content = Except.ok content)
    (hest : env.estimatorNew = Except.ok est)
    (hchunks : env.chunks = Except.ok chunks) :
    (∀ env2 : InspectEnv,
      (cmd.execute env2).2.all (fun e => ! e.usesEmbedder) = true)
    ∧ (∀ rep, (cmd.execute env).1 = Except.ok rep →
        rep.fileTokens = est content
        ∧ rep.chunkTokens = chunks.map fun c => est c.text) := by
  constructor
  · intro env2
    unfold InspectCommand.execute
    by_cases h1 : env2.fileExists
    · by_cases h2 : env2.isFile
      · simp only [h1, h2, not_true_eq_false, if_false]
        rcases env2.content with e | content2
        · simp [InspectEffect.usesEmbedder]
        · rcases env2.estimatorNew with e2 | est2
          · simp [InspectEffect.usesEmbedder]
          · rcases env2.chunks with e3 | chunks2
            · simp [InspectEffect.usesEmbedder]
            · by_cases hemp : chunks2.isEmpty
              · simp [hemp, InspectEffect.usesEmbedder]
              · simp [hemp, List.all_append, InspectEffect.usesEmbedder,
                  List.all_eq_true]
      · simp [h1, h2]
    · simp [h1]
  · intro rep hrep
    unfold InspectCommand.execute at hrep
    by_cases h1 : env.fileExists
    · by_cases h2 : env.isFile
      · simp only [h1, h2, not_true_eq_false, if_false] at hrep
        rw [hcontent, hest, hchunks] at hrep
        by_cases hemp : chunks.isEmpty
        · simp only [hemp, if_true] at hrep
          have hnil : chunks = [] := List.isEmpty_iff.mp hemp
          cases hrep
          subst hnil
          exact ⟨rfl, rfl⟩
        · simp only [hemp, if_false] at hrep
          cases hrep
          exact ⟨rfl, rfl⟩
      · simp [h1, h2] at hrep
    · simp [h1] at hrep

/-- C9 witness: the estimator-only theorem applied to a concrete inspect
run over a one-chunk file with a length-based estimator. -/
theorem inspect_uses_only_estimator_witness :
    (∀ env2 : InspectEnv,
      (cmdInspect.execute env2).2.all (fun e => ! e.usesEmbedder) = true)
    ∧ (∀ rep, (cmdInspect.execute inspectEnv0).1 = Except.ok rep →
        rep.fileTokens = (fun s : String => s.length) "fn a()\n"
        ∧ rep.chunkTokens
            = [chunk0].map fun c => (fun s : String => s.length) c.text) :=
  inspect_uses_only_estimator cmdInspect inspectEnv0 "fn a()\n"
    (fun s => s.length) [chunk0] rfl rfl rfl

end Ck
